import Mathlib

/-!
Verification development for the Air Rush arcade game (a Flappy-Bird-style
pygame project).  The definitions below are a shallow embedding of the
game's core logic:

* `settings.py` — the static difficulty table and physics constants;
* `sprites.py` — the player plane physics (`Plane.apply_gravity`, `Plane.jump`),
  obstacle and coin motion;
* `database.py` — the score store (`save_score`, `get_player_stats`),
  with SQLite storage failure modelled as an explicit boolean oracle
  (an exception inside the connection context rolls the write back,
  so a failed call leaves the store unchanged and returns `False`);
* `ui.py` — the `TextInput` widget used for the player-name screen;
* `main.py` — the per-frame session loop of `Game.run`: event handling
  (escape/pause, jump clicks, the two pygame interval timers), the
  update block (sprite motion, `handle_collision`,
  `check_coin_collection`, `adjust_difficulty`) and the draw phase,
  which recomputes the score from the wall clock while the session is
  active.

Cosmetic state (particles, screen shake, flash, fonts, sounds, fade
transitions, the cached high-score display) is omitted: it feeds only the
renderer and is never read back by the simulation.  Randomness (obstacle
jitter, coin rolls) and the pixel-mask collision tests are supplied as
per-frame oracle inputs, mirroring the values the pygame calls would
return.  Times are in milliseconds (`Nat`); physics quantities are exact
rationals standing for the Python floats.
-/

namespace AirRush

/-- Window height from settings.py (`WINDOW_HEIGHT = 800`). -/
def WINDOW_HEIGHT : Nat := 800

/-- Window width from settings.py (`WINDOW_WIDTH = 480`). -/
def WINDOW_WIDTH : Nat := 480

/-- Gravity constant declared in settings.py (`GRAVITY = 600`). -/
def GRAVITY : Nat := 600

/-- Jump strength constant declared in settings.py (`JUMP_STRENGTH = 400`). -/
def JUMP_STRENGTH : Nat := 400

/-- Maximum difficulty level from settings.py (`MAX_DIFFICULTY = 12`). -/
def MAX_DIFFICULTY : Nat := 12

/-- One row of the `DIFFICULTY_LEVELS` table in settings.py. -/
structure DifficultyTier where
  name : String
  speed : Nat
  interval : Nat
  gap : Nat
  color : Nat × Nat × Nat
deriving DecidableEq, Repr

/-- The static 12-row difficulty dictionary `DIFFICULTY_LEVELS` of
settings.py, as a partial map on level numbers (Python dict `.get`
releases `None` outside the keys). -/
def DIFFICULTY_LEVELS (level : Nat) : Option DifficultyTier :=
  if level = 1 then some ⟨"Tutorial", 200, 3000, 150, (100, 255, 100)⟩
  else if level = 2 then some ⟨"Easy", 220, 2800, 140, (150, 255, 150)⟩
  else if level = 3 then some ⟨"Beginner", 240, 2600, 130, (200, 255, 100)⟩
  else if level = 4 then some ⟨"Casual", 260, 2400, 120, (255, 255, 100)⟩
  else if level = 5 then some ⟨"Normal", 280, 2200, 110, (255, 200, 100)⟩
  else if level = 6 then some ⟨"Moderate", 300, 2000, 100, (255, 150, 100)⟩
  else if level = 7 then some ⟨"Challenging", 320, 1800, 90, (255, 100, 100)⟩
  else if level = 8 then some ⟨"Hard", 340, 1600, 80, (255, 50, 50)⟩
  else if level = 9 then some ⟨"Expert", 360, 1400, 70, (200, 50, 50)⟩
  else if level = 10 then some ⟨"Master", 380, 1200, 60, (150, 0, 0)⟩
  else if level = 11 then some ⟨"Insane", 400, 1000, 50, (100, 0, 0)⟩
  else if level = 12 then some ⟨"Nightmare", 450, 800, 40, (50, 0, 0)⟩
  else none

instance : Inhabited DifficultyTier := ⟨⟨"", 0, 0, 0, (0, 0, 0)⟩⟩

/-- The tier lookup used at the spawn/draw sites of main.py
(`DIFFICULTY_LEVELS.get(self.difficulty_level, DIFFICULTY_LEVELS[1])`,
e.g. main.py:916): the fallback for a missing key is the level-1 entry. -/
def difficultyGet1 (level : Nat) : DifficultyTier :=
  (DIFFICULTY_LEVELS level).getD ((DIFFICULTY_LEVELS 1).getD default)

/-- The tier lookup used inside `adjust_difficulty` (main.py:369,
`DIFFICULTY_LEVELS.get(self.difficulty_level, DIFFICULTY_LEVELS[MAX_DIFFICULTY])`):
the fallback for a missing key is the level-12 entry. -/
def difficultyGetMax (level : Nat) : DifficultyTier :=
  (DIFFICULTY_LEVELS level).getD ((DIFFICULTY_LEVELS MAX_DIFFICULTY).getD default)

/-- The difficulty-progression registers of the game object:
`self.difficulty_level` and `self.last_difficulty_increase`. -/
structure DiffCore where
  difficulty_level : Nat
  last_difficulty_increase : Nat
deriving DecidableEq, Repr

/-- Core of `Game.adjust_difficulty` (main.py:361-366): the level/watermark
update, returning the new registers and whether a level-up fired.  The
code increments the level only when `score > 0`, `score % 10 == 0`,
`score > last_difficulty_increase` and `difficulty_level < MAX_DIFFICULTY`;
otherwise both registers are left untouched. -/
def maybeAdvance (score : Nat) (st : DiffCore) : DiffCore × Bool :=
  if 0 < score ∧ score % 10 = 0 ∧ st.last_difficulty_increase < score then
    if st.difficulty_level < MAX_DIFFICULTY then
      (⟨st.difficulty_level + 1, score⟩, true)
    else (st, false)
  else (st, false)

/-- Round a rational to the nearest integer, ties to even — the rational
model of Python's built-in `round` (banker's rounding), used by
`round(avg, 1)` in `get_player_stats` and by pygame's `round(self.pos.y)`
in the sprite update code. -/
def roundHalfEven (q : ℚ) : ℤ :=
  if q - ⌊q⌋ < 1 / 2 then ⌊q⌋
  else if 1 / 2 < q - ⌊q⌋ then ⌊q⌋ + 1
  else if ⌊q⌋ % 2 = 0 then ⌊q⌋ else ⌊q⌋ + 1

/-- The player sprite state of sprites.py `Plane`: vertical position of the
sprite's top edge (`self.pos.y`), vertical velocity (`self.direction`) and
the per-sprite gravity constant (`self.gravity`).  The frames, mask and
sound are cosmetic and omitted. -/
structure Plane where
  posY : ℚ
  direction : ℚ
  gravity : ℚ
deriving DecidableEq, Repr

/-- The movement state set by `Plane.__init__` (sprites.py:59-77):
`self.gravity = 500` (hardcoded, "Reduced from 600 for easier control")
and `self.direction = 0`.  The initial top coordinate depends on the
plane image's pixel height (the rect is anchored midleft at half the
window height); the asset's height is not part of the simulation logic,
so the anchor height 400 stands in for it here — no theorem below
depends on this value. -/
def Plane.init : Plane := ⟨400, 0, 500⟩

/-- Plane gravity integration, sprites.py `Plane.apply_gravity`:
`self.direction += self.gravity * dt; self.pos.y += self.direction * dt`
(semi-implicit Euler: the position update uses the new velocity). -/
def Plane.apply_gravity (p : Plane) (dt : ℚ) : Plane :=
  { p with direction := p.direction + p.gravity * dt,
           posY := p.posY + (p.direction + p.gravity * dt) * dt }

/-- Plane jump command, sprites.py `Plane.jump`: `self.direction = -350`
("Reduced from -400 for more controlled jumps"), regardless of the
current velocity. -/
def Plane.jump (p : Plane) : Plane :=
  { p with direction := -350 }

/-- A persisted row of the `scores` table in database.py: name, score and
coin count (the auto id and timestamp columns are bookkeeping the game
never reads back). -/
structure ScoreRow where
  name : String
  score : Int
  coins : Int
deriving DecidableEq, Repr

/-- `GameDatabase.save_score` (database.py:41-55) over the store as a list
of rows.  `fail` is the storage-failure oracle: a `sqlite3.Error` raised
inside the `with` block makes the context manager roll the transaction
back, so the function returns `False` and the store is unchanged; the
function itself never propagates an exception (it is total here).  A
non-positive score is rejected before anything touches the store. -/
def save_score (name : String) (score : Int) (coins : Int) (fail : Bool)
    (db : List ScoreRow) : Bool × List ScoreRow :=
  if score ≤ 0 then (false, db)
  else if fail then (false, db)
  else (true, db ++ [⟨name, score, coins⟩])

/-- The result record of `GameDatabase.get_player_stats`. -/
structure PlayerStats where
  games_played : Nat
  best_score : Int
  average_score : ℚ
  total_coins : Int
deriving DecidableEq, Repr

/-- The rows of the store belonging to one player
(the SQL `WHERE name = ?` filter). -/
def playerRows (db : List ScoreRow) (name : String) : List ScoreRow :=
  db.filter (fun r => r.name == name)

/-- `GameDatabase.get_player_stats` (database.py:81-98): the SQL aggregates
`COUNT(*), MAX(score), AVG(score), SUM(coins)` over the player's rows,
with the Python falsiness fallbacks `games or 0`, `best or 0`,
`round(avg, 1) if avg else 0`, `coins or 0` (on no rows the SQL
aggregates other than COUNT are NULL, and every fallback yields zero).
`fail` is the storage-failure oracle: a `sqlite3.Error` degrades to the
all-zero dictionary. -/
def get_player_stats (fail : Bool) (db : List ScoreRow) (name : String) :
    PlayerStats :=
  if fail then ⟨0, 0, 0, 0⟩
  else
    let rows := playerRows db name
    let games := rows.length
    if games = 0 then ⟨0, 0, 0, 0⟩
    else
      let best := ((rows.map (fun r => r.score)).max?).getD 0
      let avg : ℚ := ((rows.map (fun r => r.score)).sum : ℚ) / (games : ℚ)
      let avgRounded : ℚ := if avg = 0 then 0 else (roundHalfEven (10 * avg) : ℚ) / 10
      ⟨games, best, avgRounded, (rows.map (fun r => r.coins)).sum⟩

/-- Input events reaching the `TextInput` widget (ui.py): a mouse click
(inside or outside the box), backspace, return, a key carrying a printed
character, or any other key (empty `event.unicode`). -/
inductive InputEvent where
  | mouse (inside : Bool)
  | backspace
  | enter
  | char (c : Char)
  | other
deriving DecidableEq, Repr

/-- Model of Python's `str.isalnum()` applied to the single character of
`event.unicode`. -/
def pyIsAlnum (c : Char) : Bool := c.isAlphanum

/-- The `TextInput` widget state (ui.py:63-92): the entered text, the
length cap `max_length` and the focus flag `active`. -/
structure TextInput where
  text : List Char
  max_length : Nat
  active : Bool
deriving DecidableEq, Repr

/-- `TextInput.handle_event` (ui.py:80-92): a mouse click refocuses the
box; while focused, backspace drops the last character and a printed key
appends its character when the text is shorter than `max_length` and the
character is alphanumeric (`event.unicode.isalnum()`); everything else
leaves the text unchanged. -/
def TextInput.handle_event (t : TextInput) (e : InputEvent) : TextInput :=
  match e with
  | .mouse inside => { t with active := inside }
  | .backspace => if t.active then { t with text := t.text.dropLast } else t
  | .enter => t
  | .char c =>
      if t.active ∧ t.text.length < t.max_length ∧ pyIsAlnum c then
        { t with text := t.text ++ [c] }
      else t
  | .other => t

/-- The name-input box created in `setup_ui` (main.py:221):
empty text, `max_length = 12`, focused. -/
def nameInputInit : TextInput := ⟨[], 12, true⟩

/-- An obstacle sprite (sprites.py `Obstacle`): the horizontal coordinate
of its right edge (`self.rect.right`, tracked through `self.pos.x`), its
scroll speed and the gap parameter it was created with.  Orientation and
image choice only shape the pixel mask, which the collision oracle
stands in for. -/
structure Obst where
  x : ℚ
  speed : ℚ
  gap : Nat
deriving DecidableEq, Repr

/-- Obstacle motion, sprites.py `Obstacle.update`:
`self.pos.x -= self.speed * dt`. -/
def Obst.update (o : Obst) (dt : ℚ) : Obst :=
  { o with x := o.x - o.speed * dt }

/-- A coin sprite (sprites.py `Coin`): right-edge coordinate and scroll
speed.  The vertical floating animation is cosmetic; which coins the
plane overlaps each frame comes from the collision oracle. -/
structure CoinSpr where
  x : ℚ
  speed : ℚ
deriving DecidableEq, Repr

/-- Coin motion, sprites.py `Coin.update`: `self.pos.x -= self.speed * dt`. -/
def CoinSpr.update (c : CoinSpr) (dt : ℚ) : CoinSpr :=
  { c with x := c.x - c.speed * dt }

/-- The three session modes of `self.state` that matter inside a
play-through (the menu and leaderboard screens are outside the session
machine). -/
inductive Mode where
  | playing
  | paused
  | game_over
deriving DecidableEq, Repr

/-- The session-relevant slice of the `Game` object's state (main.py).
`now` is `pygame.time.get_ticks()` in milliseconds; `obstacle_deadline`
and `coin_deadline` are the next wall-clock fire times of the two pygame
interval timers armed with `pygame.time.set_timer` (the obstacle timer
with `current_obstacle_interval`, the coin timer with 3000 ms). -/
structure GState where
  mode : Mode
  active : Bool
  score : Nat
  start_offset : Nat
  now : Nat
  plane : Plane
  obstacles : List Obst
  coins : List CoinSpr
  coin_count : Nat
  difficulty_level : Nat
  last_difficulty_increase : Nat
  obstacle_speed : Nat
  current_obstacle_interval : Nat
  obstacle_deadline : Nat
  coin_deadline : Nat
  player_name : List Char
  db : List ScoreRow
deriving DecidableEq, Repr

/-- One frame's external inputs to `Game.run`: the real elapsed
milliseconds, the queued user events (escape key, mouse click in the play
area), and the oracle values of this frame's pygame calls — spawn
x-coordinates for obstacle-timer fires, (roll, x) pairs for coin-timer
fires (`random.random() < 0.4` outcome and position), the
`pygame.sprite.spritecollide` mask-test result against the collision
group, and the per-coin overlap mask of `check_coin_collection`. -/
structure Frame where
  dt_ms : Nat
  press_escape : Bool
  click_jump : Bool
  obstacle_xs : List ℚ
  coin_spawns : List (Bool × ℚ)
  collide : Bool
  collect_mask : List Bool
deriving Repr

/-- A frame with no user events, no collisions and no spawns decided,
elapsing `d` milliseconds. -/
def Frame.idle (d : Nat) : Frame := ⟨d, false, false, [], [], false, []⟩

/-- How many times a repeating pygame interval timer fires in the window
ending at `now`, given its next scheduled fire time `deadline`. -/
def timerFires (deadline interval now : Nat) : Nat :=
  if deadline ≤ now ∧ 0 < interval then (now - deadline) / interval + 1 else 0

/-- `Game.toggle_pause` (main.py:462-467): flips playing and paused,
touching nothing else. -/
def toggle_pause (s : GState) : GState :=
  match s.mode with
  | .playing => { s with mode := .paused }
  | .paused => { s with mode := .playing }
  | .game_over => s

/-- Escape-key handling in `Game.handle_input` (main.py:889-894): in the
playing and paused states the escape key toggles pause. -/
def handle_escape (s : GState) : GState :=
  if s.mode = .playing ∨ s.mode = .paused then toggle_pause s else s

/-- Mouse-click handling while playing (main.py:912-913): a click makes
the plane jump when the session is active. -/
def handle_jump_click (s : GState) : GState :=
  if s.mode = .playing ∧ s.active = true then { s with plane := s.plane.jump }
  else s

/-- Obstacle-timer events in `Game.handle_input` (main.py:915-918): the
timer fires on its wall-clock schedule regardless of the game state, but
an event spawns an obstacle — gap from the level-1-fallback tier lookup,
speed `self.obstacle_speed` — only when the state is playing and the
session is active; in every other state the event is discarded. -/
def fire_obstacle_timer (s : GState) (xs : List ℚ) : GState :=
  let n := timerFires s.obstacle_deadline s.current_obstacle_interval s.now
  let spawned := (List.range n).map
    (fun i => Obst.mk (xs.getD i (WINDOW_WIDTH + 100 : Nat))
      (s.obstacle_speed : ℚ) (difficultyGet1 s.difficulty_level).gap)
  { s with obstacle_deadline := s.obstacle_deadline + n * s.current_obstacle_interval,
           obstacles :=
             if s.mode = .playing ∧ s.active = true then s.obstacles ++ spawned
             else s.obstacles }

/-- Coin-timer events in `Game.handle_input` (main.py:920-922): the timer
fires every 3000 ms on its wall-clock schedule; an event spawns a coin at
the current obstacle speed only when playing, active and the 40% roll
succeeds; otherwise it is discarded. -/
def fire_coin_timer (s : GState) (spawns : List (Bool × ℚ)) : GState :=
  let n := timerFires s.coin_deadline 3000 s.now
  let spawned := ((List.range n).filterMap
    (fun i => if (spawns.getD i (false, 0)).1 then
        some (CoinSpr.mk (spawns.getD i (false, 0)).2 (s.obstacle_speed : ℚ))
      else none))
  { s with coin_deadline := s.coin_deadline + n * 3000,
           coins :=
             if s.mode = .playing ∧ s.active = true then s.coins ++ spawned
             else s.coins }

/-- The `self.all_sprites.update(dt)` call of the update block: gravity
integration for the plane and scroll motion for every obstacle, with
obstacles killed once fully past the left edge
(`if self.rect.right <= -100: self.kill()`). -/
def sprites_update (s : GState) (dt : ℚ) : GState :=
  { s with plane := s.plane.apply_gravity dt,
           obstacles := (s.obstacles.map (fun o => o.update dt)).filter
             (fun o => decide (-100 < o.x)) }

/-- The `self.coins.update(dt)` call: coin scroll motion, with coins
killed once past the left edge (`if self.rect.right <= -50`). -/
def coins_update (s : GState) (dt : ℚ) : GState :=
  { s with coins := (s.coins.map (fun c => c.update dt)).filter
             (fun c => decide (-50 < c.x)) }

/-- `Game.handle_collision` (main.py:291-321).  The terminal condition is
the pixel-mask `spritecollide` against the collision group (the oracle
`collide`) or the plane's top at or above the ceiling
(`self.plane.rect.top <= 0`, with `rect.top` the banker's rounding of
`pos.y`).  On a terminal event the obstacles are cleared, the session
becomes inactive, the state switches to game over, and — only when
`self.score > 0` — one row {player name, score, coin count} is saved to
the store. -/
def handle_collision (s : GState) (collide : Bool) : GState :=
  if collide = true ∨ roundHalfEven s.plane.posY ≤ 0 then
    { s with obstacles := [],
             active := false,
             mode := .game_over,
             db := if 0 < s.score then
                 s.db ++ [⟨String.mk s.player_name, (s.score : Int), (s.coin_count : Int)⟩]
               else s.db }
  else s

/-- `Game.check_coin_collection` (main.py:323-333): the coins overlapping
the plane this frame (oracle `mask`, aligned with the live coin list) are
removed and `self.coin_count` grows by their number. -/
def check_coin_collection (s : GState) (mask : List Bool) : GState :=
  let flagged : List (CoinSpr × Bool) :=
    s.coins.enum.map (fun p => (p.2, mask.getD p.1 false))
  { s with coins := (flagged.filter (fun p => !p.2)).map (fun p => p.1),
           coin_count := s.coin_count + (flagged.filter (fun p => p.2)).length }

/-- `Game.adjust_difficulty` (main.py:361-383) on the session state: when
`maybeAdvance` fires, the level and watermark move, the obstacle speed
and interval are reloaded from the new tier (level-12-fallback lookup),
and `pygame.time.set_timer(self.obstacle_timer, ...)` restarts the
obstacle timer, putting its next fire one new interval after now.  The
coin timer is not touched. -/
def adjust_difficulty (s : GState) : GState :=
  let r := maybeAdvance s.score ⟨s.difficulty_level, s.last_difficulty_increase⟩
  if r.2 then
    let diff := difficultyGetMax r.1.difficulty_level
    { s with difficulty_level := r.1.difficulty_level,
             last_difficulty_increase := r.1.last_difficulty_increase,
             obstacle_speed := diff.speed,
             current_obstacle_interval := diff.interval,
             obstacle_deadline := s.now + diff.interval }
  else s

/-- The guarded update block of `Game.run` (main.py:959-964): only when
playing and active are the sprites updated, collisions handled, coins
collected and the difficulty adjusted, in that order. -/
def update_phase (s : GState) (f : Frame) (dt : ℚ) : GState :=
  if s.mode = .playing ∧ s.active = true then
    adjust_difficulty
      (check_coin_collection
        (handle_collision (coins_update (sprites_update s dt) dt) f.collide)
        f.collect_mask)
  else s

/-- The score recomputation of the draw phase.  `draw_game_ui`
(main.py:607-608) sets `self.score = (get_ticks() - start_offset) // 1000`
whenever the session is active; it runs in the playing state and is also
called underneath the pause menu and the game-over screen, so an active
paused session keeps its score pinned to the wall clock. -/
def draw_phase (s : GState) : GState :=
  if s.active = true then { s with score := (s.now - s.start_offset) / 1000 }
  else s

/-- The event-handling pass of one loop iteration (the `pygame.event.get()`
loop feeding `Game.handle_input`): the queued user events — escape key,
mouse click — then the due timer events. -/
def events_phase (s : GState) (f : Frame) : GState :=
  let s1 := if f.press_escape then handle_escape s else s
  let s2 := if f.click_jump then handle_jump_click s1 else s1
  fire_coin_timer (fire_obstacle_timer s2 f.obstacle_xs) f.coin_spawns

/-- One iteration of the `Game.run` loop (main.py:937-970): the wall
clock advances by the real elapsed time, the queued events are handled
(escape, mouse, then the timer events), the capped-dt update block runs,
and the draw phase refreshes the displayed score.  The simulation dt is
`min(dt, 0.05)` seconds. -/
def step (s : GState) (f : Frame) : GState :=
  let dt : ℚ := (min f.dt_ms 50 : Nat) / 1000
  draw_phase (update_phase (events_phase { s with now := s.now + f.dt_ms } f) f dt)

/-- A run of the session loop over a list of frames. -/
def run (s : GState) (fs : List Frame) : GState := fs.foldl step s

/-- `Game.reset_game` (main.py:261-289): sprites cleared, a fresh plane,
state playing, active, score and coin count zeroed, the score clock
anchored at the current ticks, and `setup_difficulty` rerun — level 1,
watermark 0, tier-1 speed 200 and interval 3000, both timers armed to
fire one period from now (the coin timer with its constant 3000 ms). -/
def reset_game (s : GState) : GState :=
  { s with mode := .playing,
           active := true,
           score := 0,
           coin_count := 0,
           start_offset := s.now,
           plane := Plane.init,
           obstacles := [],
           coins := [],
           difficulty_level := 1,
           last_difficulty_increase := 0,
           obstacle_speed := 200,
           current_obstacle_interval := 3000,
           obstacle_deadline := s.now + 3000,
           coin_deadline := s.now + 3000 }

/-- The session start from the name-input screen (main.py:904-909): on
return with a non-empty entered text, `self.player_name` is set to that
text and `reset_game` starts the play-through. -/
def start_session (name : List Char) (s : GState) : GState :=
  reset_game { s with player_name := name }

/-- A quiescent pre-session state at tick zero with an empty store. -/
def GState.initial : GState :=
  { mode := .game_over, active := false, score := 0, start_offset := 0,
    now := 0, plane := Plane.init, obstacles := [], coins := [],
    coin_count := 0, difficulty_level := 1, last_difficulty_increase := 0,
    obstacle_speed := 200, current_obstacle_interval := 3000,
    obstacle_deadline := 3000, coin_deadline := 3000, player_name := [],
    db := [] }

/-! Helper lemmas about `maybeAdvance`. -/

theorem maybeAdvance_true_iff (score : Nat) (st : DiffCore) :
    (maybeAdvance score st).2 = true ↔
      0 < score ∧ score % 10 = 0 ∧ st.last_difficulty_increase < score ∧
        st.difficulty_level < MAX_DIFFICULTY := by
  unfold maybeAdvance
  split
  · split
    · simp_all
    · simp_all
  · simp_all [MAX_DIFFICULTY]

theorem maybeAdvance_fst_of_true (score : Nat) (st : DiffCore)
    (h : (maybeAdvance score st).2 = true) :
    (maybeAdvance score st).1 = ⟨st.difficulty_level + 1, score⟩ := by
  unfold maybeAdvance at h ⊢
  split
  · split
    · rfl
    · exfalso; simp_all
  · exfalso; simp_all

theorem maybeAdvance_fst_of_false (score : Nat) (st : DiffCore)
    (h : (maybeAdvance score st).2 = false) :
    (maybeAdvance score st).1 = st := by
  unfold maybeAdvance at h ⊢
  split
  · split
    · exfalso; simp_all
    · rfl
  · rfl

theorem maybeAdvance_level_mono (score : Nat) (st : DiffCore) :
    st.difficulty_level ≤ (maybeAdvance score st).1.difficulty_level := by
  unfold maybeAdvance
  split
  · split
    · simp
    · simp
  · simp

theorem maybeAdvance_stable (score : Nat) (st : DiffCore) :
    (maybeAdvance score (maybeAdvance score st).1).1 = (maybeAdvance score st).1 := by
  rcases h : (maybeAdvance score st).2 with _ | _
  · rw [maybeAdvance_fst_of_false score st h]
    rw [maybeAdvance_fst_of_false score st h]
  · rw [maybeAdvance_fst_of_true score st h]
    apply maybeAdvance_fst_of_false
    unfold maybeAdvance
    simp

/-! Projection lemmas: which fields each stage of the frame step leaves
untouched. -/

@[simp] theorem toggle_pause_db (s : GState) : (toggle_pause s).db = s.db := by
  unfold toggle_pause; cases hm : s.mode <;> rfl

@[simp] theorem toggle_pause_active (s : GState) :
    (toggle_pause s).active = s.active := by
  unfold toggle_pause; cases hm : s.mode <;> rfl

@[simp] theorem toggle_pause_pname (s : GState) :
    (toggle_pause s).player_name = s.player_name := by
  unfold toggle_pause; cases hm : s.mode <;> rfl

@[simp] theorem handle_escape_db (s : GState) :
    (handle_escape s).db = s.db := by
  unfold handle_escape; split <;> simp

@[simp] theorem handle_escape_active (s : GState) :
    (handle_escape s).active = s.active := by
  unfold handle_escape; split <;> simp

@[simp] theorem handle_escape_pname (s : GState) :
    (handle_escape s).player_name = s.player_name := by
  unfold handle_escape; split <;> simp

@[simp] theorem handle_jump_click_db (s : GState) :
    (handle_jump_click s).db = s.db := by
  unfold handle_jump_click; split <;> rfl

@[simp] theorem handle_jump_click_active (s : GState) :
    (handle_jump_click s).active = s.active := by
  unfold handle_jump_click; split <;> rfl

@[simp] theorem handle_jump_click_pname (s : GState) :
    (handle_jump_click s).player_name = s.player_name := by
  unfold handle_jump_click; split <;> rfl

@[simp] theorem fire_obstacle_timer_db (s : GState) (xs : List ℚ) :
    (fire_obstacle_timer s xs).db = s.db := rfl

@[simp] theorem fire_obstacle_timer_active (s : GState) (xs : List ℚ) :
    (fire_obstacle_timer s xs).active = s.active := rfl

@[simp] theorem fire_obstacle_timer_pname (s : GState) (xs : List ℚ) :
    (fire_obstacle_timer s xs).player_name = s.player_name := rfl

@[simp] theorem fire_coin_timer_db (s : GState) (sp : List (Bool × ℚ)) :
    (fire_coin_timer s sp).db = s.db := rfl

@[simp] theorem fire_coin_timer_active (s : GState) (sp : List (Bool × ℚ)) :
    (fire_coin_timer s sp).active = s.active := rfl

@[simp] theorem fire_coin_timer_pname (s : GState) (sp : List (Bool × ℚ)) :
    (fire_coin_timer s sp).player_name = s.player_name := rfl

@[simp] theorem sprites_update_db (s : GState) (dt : ℚ) :
    (sprites_update s dt).db = s.db := rfl

@[simp] theorem sprites_update_active (s : GState) (dt : ℚ) :
    (sprites_update s dt).active = s.active := rfl

@[simp] theorem sprites_update_pname (s : GState) (dt : ℚ) :
    (sprites_update s dt).player_name = s.player_name := rfl

@[simp] theorem sprites_update_score (s : GState) (dt : ℚ) :
    (sprites_update s dt).score = s.score := rfl

@[simp] theorem sprites_update_ccount (s : GState) (dt : ℚ) :
    (sprites_update s dt).coin_count = s.coin_count := rfl

@[simp] theorem coins_update_db (s : GState) (dt : ℚ) :
    (coins_update s dt).db = s.db := rfl

@[simp] theorem coins_update_active (s : GState) (dt : ℚ) :
    (coins_update s dt).active = s.active := rfl

@[simp] theorem coins_update_pname (s : GState) (dt : ℚ) :
    (coins_update s dt).player_name = s.player_name := rfl

@[simp] theorem coins_update_score (s : GState) (dt : ℚ) :
    (coins_update s dt).score = s.score := rfl

@[simp] theorem coins_update_ccount (s : GState) (dt : ℚ) :
    (coins_update s dt).coin_count = s.coin_count := rfl

@[simp] theorem check_coin_collection_db (s : GState) (m : List Bool) :
    (check_coin_collection s m).db = s.db := rfl

@[simp] theorem check_coin_collection_active (s : GState) (m : List Bool) :
    (check_coin_collection s m).active = s.active := rfl

@[simp] theorem check_coin_collection_pname (s : GState) (m : List Bool) :
    (check_coin_collection s m).player_name = s.player_name := rfl

@[simp] theorem adjust_difficulty_db (s : GState) :
    (adjust_difficulty s).db = s.db := by
  cases h : (maybeAdvance s.score
      ⟨s.difficulty_level, s.last_difficulty_increase⟩).2 <;>
    simp [adjust_difficulty, h]

@[simp] theorem adjust_difficulty_active (s : GState) :
    (adjust_difficulty s).active = s.active := by
  cases h : (maybeAdvance s.score
      ⟨s.difficulty_level, s.last_difficulty_increase⟩).2 <;>
    simp [adjust_difficulty, h]

@[simp] theorem adjust_difficulty_pname (s : GState) :
    (adjust_difficulty s).player_name = s.player_name := by
  cases h : (maybeAdvance s.score
      ⟨s.difficulty_level, s.last_difficulty_increase⟩).2 <;>
    simp [adjust_difficulty, h]

@[simp] theorem draw_phase_db (s : GState) : (draw_phase s).db = s.db := by
  unfold draw_phase; split <;> rfl

@[simp] theorem draw_phase_active (s : GState) :
    (draw_phase s).active = s.active := by
  unfold draw_phase; split <;> rfl

@[simp] theorem draw_phase_pname (s : GState) :
    (draw_phase s).player_name = s.player_name := by
  unfold draw_phase; split <;> rfl

/-- Case analysis of `handle_collision`: either the terminal condition is
false and the state is unchanged, or the session ends — inactive, mode
game over — with one row appended exactly when the score is positive. -/
theorem handle_collision_cases (s : GState) (c : Bool) :
    (¬(c = true ∨ roundHalfEven s.plane.posY ≤ 0) ∧ handle_collision s c = s) ∨
    ((c = true ∨ roundHalfEven s.plane.posY ≤ 0) ∧
      (handle_collision s c).active = false ∧
      (handle_collision s c).mode = .game_over ∧
      (handle_collision s c).player_name = s.player_name ∧
      ((0 < s.score ∧ (handle_collision s c).db =
          s.db ++ [⟨String.mk s.player_name, (s.score : Int), (s.coin_count : Int)⟩]) ∨
        (s.score = 0 ∧ (handle_collision s c).db = s.db))) := by
  unfold handle_collision
  split
  · right
    refine ⟨by assumption, rfl, rfl, rfl, ?_⟩
    rcases Nat.eq_zero_or_pos s.score with h0 | h0
    · right
      exact ⟨h0, by simp [h0]⟩
    · left
      exact ⟨h0, by simp [h0]⟩
  · left
    exact ⟨by assumption, rfl⟩

/-- The update block can only turn `active` off, never on. -/
theorem update_phase_active_mono (s : GState) (f : Frame) (dt : ℚ)
    (h : (update_phase s f dt).active = true) : s.active = true := by
  unfold update_phase at h
  split at h
  · rcases handle_collision_cases (coins_update (sprites_update s dt) dt)
        f.collide with ⟨_, heq⟩ | ⟨_, hact, _⟩
    · simpa [heq] using h
    · simp [hact] at h
  · exact h

/-- The update block either leaves the store alone, or — only from an
active state — appends exactly one row carrying the session's player
name and turns the session inactive. -/
theorem update_phase_db_spec (s : GState) (f : Frame) (dt : ℚ) :
    (update_phase s f dt).db = s.db ∨
    (s.active = true ∧ (update_phase s f dt).active = false ∧
      ∃ r : ScoreRow, r.name = String.mk s.player_name ∧
        (update_phase s f dt).db = s.db ++ [r]) := by
  unfold update_phase
  split
  · rename_i hga
    rcases handle_collision_cases (coins_update (sprites_update s dt) dt)
        f.collide with ⟨_, heq⟩ | ⟨_, hact, _, hpn, hdb⟩
    · left
      simp [heq]
    · rcases hdb with ⟨hpos, hdb⟩ | ⟨hz, hdb⟩
      · right
        refine ⟨hga.2, by simp [hact],
          ⟨String.mk s.player_name, (s.score : Int), (s.coin_count : Int)⟩,
          rfl, ?_⟩
        rw [show (adjust_difficulty (check_coin_collection
            (handle_collision (coins_update (sprites_update s dt) dt)
              f.collide) f.collect_mask)).db =
            (handle_collision (coins_update (sprites_update s dt) dt)
              f.collide).db by simp]
        rw [hdb]
        simp
      · left
        simp [hdb]
  · left
    rfl

@[simp] theorem events_phase_db (s : GState) (f : Frame) :
    (events_phase s f).db = s.db := by
  unfold events_phase
  split_ifs <;> simp

@[simp] theorem events_phase_active (s : GState) (f : Frame) :
    (events_phase s f).active = s.active := by
  unfold events_phase
  split_ifs <;> simp

@[simp] theorem events_phase_pname (s : GState) (f : Frame) :
    (events_phase s f).player_name = s.player_name := by
  unfold events_phase
  split_ifs <;> simp

/-- A frame step never turns `active` on. -/
theorem step_active_mono (s : GState) (f : Frame)
    (h : (step s f).active = true) : s.active = true := by
  unfold step at h
  simp only [draw_phase_active] at h
  have h2 := update_phase_active_mono _ f _ h
  simpa using h2

@[simp] theorem handle_collision_pname (s : GState) (c : Bool) :
    (handle_collision s c).player_name = s.player_name := by
  unfold handle_collision; split <;> rfl

@[simp] theorem update_phase_pname (s : GState) (f : Frame) (dt : ℚ) :
    (update_phase s f dt).player_name = s.player_name := by
  unfold update_phase; split <;> simp

/-- A frame step preserves the session's player name. -/
theorem step_pname (s : GState) (f : Frame) :
    (step s f).player_name = s.player_name := by
  unfold step
  simp

/-- A frame step either leaves the store alone, or — only from an active
session — appends exactly one row carrying the session's player name
while ending the session. -/
theorem step_db_spec (s : GState) (f : Frame) :
    (step s f).db = s.db ∨
    (s.active = true ∧ (step s f).active = false ∧
      ∃ r : ScoreRow, r.name = String.mk s.player_name ∧
        (step s f).db = s.db ++ [r]) := by
  unfold step
  rcases update_phase_db_spec (events_phase { s with now := s.now + f.dt_ms } f)
      f ((min f.dt_ms 50 : Nat) / 1000 : ℚ) with h | ⟨ha, hact, r, hrn, hdb⟩
  · left
    rw [draw_phase_db, h, events_phase_db]
  · right
    refine ⟨by simpa using ha, by simpa using hact, r, by simpa using hrn, ?_⟩
    rw [draw_phase_db, hdb, events_phase_db]

/-- A run started from an inactive session never touches the store and
stays inactive. -/
theorem run_inactive (fs : List Frame) (s : GState) (h : s.active = false) :
    (run s fs).db = s.db ∧ (run s fs).active = false := by
  induction fs generalizing s with
  | nil => exact ⟨rfl, h⟩
  | cons f fs ih =>
      have hact : (step s f).active = false := by
        cases hx : (step s f).active
        · rfl
        · exact absurd (step_active_mono s f hx) (by simp [h])
      have hdb : (step s f).db = s.db := by
        rcases step_db_spec s f with h1 | ⟨h1, _⟩
        · exact h1
        · exact absurd h1 (by simp [h])
      have := ih (step s f) hact
      exact ⟨by simpa [run, hdb] using this.1, by simpa [run] using this.2⟩

/-- A run preserves the session's player name. -/
theorem run_pname (fs : List Frame) (s : GState) :
    (run s fs).player_name = s.player_name := by
  induction fs generalizing s with
  | nil => rfl
  | cons f fs ih => exact (ih (step s f)).trans (step_pname s f)

/-- Every row present after a run was either already in the store or
carries the session's player name. -/
theorem run_db_mem (fs : List Frame) (s : GState) :
    ∀ r ∈ (run s fs).db, r ∈ s.db ∨ r.name = String.mk s.player_name := by
  induction fs generalizing s with
  | nil => exact fun r hr => Or.inl hr
  | cons f fs ih =>
      intro r hr
      rcases ih (step s f) r hr with hmem | hname
      · rcases step_db_spec s f with h1 | ⟨_, _, r0, hr0n, hdb⟩
        · exact Or.inl (h1 ▸ hmem)
        · rw [hdb] at hmem
          rcases List.mem_append.mp hmem with h2 | h2
          · exact Or.inl h2
          · right
            rw [List.mem_singleton.mp h2]
            exact hr0n
      · right
        rw [hname, step_pname s f]

/-- Over one run, at most one row is appended to the store, and none at
all from an inactive session. -/
theorem run_db_len (fs : List Frame) (s : GState) :
    (run s fs).db.length ≤ s.db.length + (if s.active = true then 1 else 0) := by
  induction fs generalizing s with
  | nil => exact Nat.le_add_right _ _
  | cons f fs ih =>
      rcases step_db_spec s f with h1 | ⟨ha, hact, r, _, hdb⟩
      · have h2 := ih (step s f)
        rw [h1] at h2
        have h3 : (if (step s f).active = true then 1 else 0) ≤
            (if s.active = true then 1 else 0) := by
          cases hx : (step s f).active
          · simp [hx]
          · simp [hx, step_active_mono s f hx]
        calc (run s (f :: fs)).db.length
            ≤ s.db.length + (if (step s f).active = true then 1 else 0) := h2
          _ ≤ s.db.length + (if s.active = true then 1 else 0) :=
              Nat.add_le_add_left h3 _
      · have h2 := (run_inactive fs (step s f) hact).1
        have : (run s (f :: fs)).db = s.db ++ [r] := by
          simpa [run, hdb] using h2
        simp [this, ha]

/-- One `TextInput` event keeps the entered text within the length cap
and alphanumeric, and never changes the cap. -/
theorem handle_event_inv (t : TextInput) (e : InputEvent)
    (h1 : t.text.length ≤ t.max_length) (h2 : t.text.all pyIsAlnum = true) :
    (t.handle_event e).max_length = t.max_length ∧
    (t.handle_event e).text.length ≤ t.max_length ∧
    (t.handle_event e).text.all pyIsAlnum = true := by
  cases e with
  | mouse inside => exact ⟨rfl, h1, h2⟩
  | backspace =>
      simp only [TextInput.handle_event]
      split
      · refine ⟨rfl, ?_, ?_⟩
        · show t.text.dropLast.length ≤ t.max_length
          have := t.text.length_dropLast
          omega
        · show t.text.dropLast.all pyIsAlnum = true
          rw [List.all_eq_true] at h2 ⊢
          exact fun c hc => h2 c ((List.dropLast_sublist t.text).subset hc)
      · exact ⟨rfl, h1, h2⟩
  | enter => exact ⟨rfl, h1, h2⟩
  | char c =>
      simp only [TextInput.handle_event]
      split
      · rename_i hcond
        refine ⟨rfl, ?_, ?_⟩
        · show (t.text ++ [c]).length ≤ t.max_length
          have hlen := hcond.2.1
          rw [List.length_append, List.length_singleton]
          omega
        · show (t.text ++ [c]).all pyIsAlnum = true
          rw [List.all_append]
          simp [h2, hcond.2.2]
      · exact ⟨rfl, h1, h2⟩
  | other => exact ⟨rfl, h1, h2⟩

/-- The text accumulated by the name-input box from any event stream is
at most twelve characters and purely alphanumeric. -/
theorem foldl_handle_event_inv (es : List InputEvent) (t : TextInput)
    (h0 : t.max_length = 12) (h1 : t.text.length ≤ 12)
    (h2 : t.text.all pyIsAlnum = true) :
    (es.foldl TextInput.handle_event t).max_length = 12 ∧
    (es.foldl TextInput.handle_event t).text.length ≤ 12 ∧
    (es.foldl TextInput.handle_event t).text.all pyIsAlnum = true := by
  induction es generalizing t with
  | nil => exact ⟨h0, h1, h2⟩
  | cons e es ih =>
      have h := handle_event_inv t e (h0 ▸ h1) h2
      exact ih (t.handle_event e) (h.1.trans h0) (h0 ▸ h.2.1) h.2.2

/-- Symbolic evaluation of a resume frame: an escape keypress arriving
while paused and active, in a frame with no click, no collision, no due
timer fire, no pending entities and no difficulty advance, switches back
to playing and recomputes the score from the wall clock while leaving
the timer deadlines and the store untouched. -/
theorem step_resume_eval (s : GState) (f : Frame)
    (hm : s.mode = Mode.paused) (ha : s.active = true)
    (he : f.press_escape = true) (hj : f.click_jump = false)
    (hc : f.collide = false)
    (hfire1 : ¬s.obstacle_deadline ≤ s.now + f.dt_ms)
    (hfire2 : ¬s.coin_deadline ≤ s.now + f.dt_ms)
    (hobs : s.obstacles = []) (hcoins : s.coins = [])
    (hnocol : ¬roundHalfEven ((s.plane.apply_gravity
      ((min f.dt_ms 50 : Nat) / 1000 : ℚ)).posY) ≤ 0)
    (hnoadv : (maybeAdvance s.score
      ⟨s.difficulty_level, s.last_difficulty_increase⟩).2 = false) :
    (step s f).mode = Mode.playing ∧ (step s f).active = true ∧
    (step s f).now = s.now + f.dt_ms ∧
    (step s f).score = (s.now + f.dt_ms - s.start_offset) / 1000 ∧
    (step s f).obstacle_deadline = s.obstacle_deadline ∧
    (step s f).coin_deadline = s.coin_deadline ∧
    (step s f).obstacles = [] ∧ (step s f).coins = [] ∧
    (step s f).db = s.db := by
  unfold step events_phase update_phase draw_phase
  generalize hdt : ((min f.dt_ms 50 : Nat) / 1000 : ℚ) = dtq
  rw [hdt] at hnocol
  simp [he, hj, hm, ha, hc, hobs, hcoins, hnocol, hnoadv, handle_escape,
    toggle_pause, handle_jump_click, fire_obstacle_timer, fire_coin_timer,
    timerFires, hfire1, hfire2, sprites_update, coins_update,
    handle_collision, check_coin_collection, adjust_difficulty]

/-! Claim theorems. -/

/-- C2 (counterexample): the claim says levels above 12 clamp to the
level-12 tier, but the lookup used at the cited site falls back to the
level-1 entry: at level 13 it returns the Tutorial tier, not the
Nightmare tier. -/
theorem c2_tier_clamp_counterexample :
    difficultyGet1 13 ≠ difficultyGet1 12 ∧
    difficultyGet1 13 = difficultyGet1 1 ∧
    (difficultyGet1 13).name = "Tutorial" := by
  refine ⟨?_, rfl, rfl⟩
  intro h
  have := congrArg DifficultyTier.name h
  simp [difficultyGet1, DIFFICULTY_LEVELS] at this

/-- C2 (amended): the tier lookup is a pure function of the level; for
every level in 1..12 it returns exactly that level's entry of the static
table, with level 1 named Tutorial and level 12 named Nightmare; for
every level above 12 the cited spawn-site lookup falls back to the
level-1 ("Tutorial") entry rather than clamping to level 12. -/
theorem c2_tier_lookup (level : Nat) :
    (1 ≤ level ∧ level ≤ 12 → DIFFICULTY_LEVELS level = some (difficultyGet1 level)) ∧
    (12 < level → difficultyGet1 level = difficultyGet1 1) ∧
    (difficultyGet1 1).name = "Tutorial" ∧
    (difficultyGet1 12).name = "Nightmare" := by
  refine ⟨?_, ?_, rfl, rfl⟩
  · rintro ⟨hlo, hhi⟩
    interval_cases level <;> rfl
  · intro h
    have hnone : DIFFICULTY_LEVELS level = none := by
      unfold DIFFICULTY_LEVELS
      repeat rw [if_neg (by omega)]
    rw [difficultyGet1, difficultyGet1, hnone]
    rfl

/-- C2 witness: the amended lookup facts evaluated at levels 5 and 13. -/
theorem c2_tier_lookup_witness :
    DIFFICULTY_LEVELS 5 = some (difficultyGet1 5) ∧
    difficultyGet1 13 = difficultyGet1 1 :=
  ⟨(c2_tier_lookup 5).1 (by omega), (c2_tier_lookup 13).2.1 (by omega)⟩

/-- C3: the difficulty-advance step increments the level by one exactly
when the score is positive, a multiple of ten, above the watermark and
the level is below 12, and otherwise changes nothing; the level never
decreases; rerunning it at an unchanged score does not re-trigger; and
over the score sequence 0,1,...,20 the level rises exactly at 10 and at
20, ending at level 3 with watermark 20 (still level 1 after 0..9, level
2 with watermark 10 after 0..10). -/
theorem c3_difficulty_advance (score : Nat) (st : DiffCore) :
    ((maybeAdvance score st).2 = true ↔
      0 < score ∧ score % 10 = 0 ∧ st.last_difficulty_increase < score ∧
        st.difficulty_level < 12) ∧
    ((maybeAdvance score st).2 = true →
      (maybeAdvance score st).1 = ⟨st.difficulty_level + 1, score⟩) ∧
    ((maybeAdvance score st).2 = false → (maybeAdvance score st).1 = st) ∧
    st.difficulty_level ≤ (maybeAdvance score st).1.difficulty_level ∧
    (maybeAdvance score (maybeAdvance score st).1).1 = (maybeAdvance score st).1 ∧
    (List.range 10).foldl (fun c sc => (maybeAdvance sc c).1) ⟨1, 0⟩ = ⟨1, 0⟩ ∧
    (List.range 11).foldl (fun c sc => (maybeAdvance sc c).1) ⟨1, 0⟩ = ⟨2, 10⟩ ∧
    (List.range 21).foldl (fun c sc => (maybeAdvance sc c).1) ⟨1, 0⟩ = ⟨3, 20⟩ :=
  ⟨maybeAdvance_true_iff score st, maybeAdvance_fst_of_true score st,
    maybeAdvance_fst_of_false score st, maybeAdvance_level_mono score st,
    maybeAdvance_stable score st, by decide, by decide, by decide⟩

/-- C3 witness: the advance and no-advance branches evaluated at scores
10 and 7 from level 1 with watermark 0. -/
theorem c3_difficulty_advance_witness :
    (maybeAdvance 10 ⟨1, 0⟩).1 = ⟨2, 10⟩ ∧ (maybeAdvance 7 ⟨1, 0⟩).1 = ⟨1, 0⟩ :=
  ⟨(c3_difficulty_advance 10 ⟨1, 0⟩).2.1 (by decide),
   (c3_difficulty_advance 7 ⟨1, 0⟩).2.2.1 (by decide)⟩

/-- C6: the score-store append is total (returning a boolean, never an
exception): a non-positive score is a no-op returning false, a storage
failure degrades to false with the store unchanged, and otherwise one
row is appended and true returned. -/
theorem c6_save_score_error_handling (name : String) (score : Int)
    (coins : Int) (fail : Bool) (db : List ScoreRow) :
    (score ≤ 0 → save_score name score coins fail db = (false, db)) ∧
    (fail = true → (save_score name score coins fail db).1 = false ∧
      (save_score name score coins fail db).2 = db) ∧
    (0 < score → fail = false →
      save_score name score coins fail db = (true, db ++ [⟨name, score, coins⟩])) := by
  unfold save_score
  refine ⟨fun h => by rw [if_pos h], fun h => ?_, fun h1 h2 => ?_⟩
  · subst h
    split
    · exact ⟨rfl, rfl⟩
    · exact ⟨rfl, rfl⟩
  · subst h2
    rw [if_neg (by omega)]
    rfl

/-- C6 witness: the three branches evaluated on concrete inputs. -/
theorem c6_save_score_witness :
    save_score "A" 0 3 false [] = (false, []) ∧
    (save_score "A" 5 2 true []).1 = false ∧
    save_score "A" 5 2 false [] = (true, [⟨"A", 5, 2⟩]) :=
  ⟨(c6_save_score_error_handling "A" 0 3 false []).1 (by omega),
   ((c6_save_score_error_handling "A" 5 2 true []).2.1 rfl).1,
   (c6_save_score_error_handling "A" 5 2 false []).2.2 (by omega) rfl⟩

/-- The three-game example store of the C7 claim. -/
def statsExampleDb : List ScoreRow := [⟨"A", 10, 1⟩, ⟨"A", 20, 2⟩, ⟨"A", 30, 3⟩]

/-- C7: player statistics are the count, maximum, one-decimal-rounded
mean and coin sum of the player's rows — on the example store (scores
10, 20, 30 and coins 1, 2, 3) they are 3 games, best 30, average 20.0
and 6 coins, and a player with no rows gets all zeros. -/
theorem c7_player_stats :
    get_player_stats false statsExampleDb "A" = ⟨3, 30, 20, 6⟩ ∧
    (∀ db name, playerRows db name = [] →
      get_player_stats false db name = ⟨0, 0, 0, 0⟩) ∧
    (∀ db name, playerRows db name ≠ [] →
      (get_player_stats false db name).games_played = (playerRows db name).length ∧
      (get_player_stats false db name).best_score =
        (((playerRows db name).map (fun r => r.score)).max?).getD 0 ∧
      (get_player_stats false db name).total_coins =
        ((playerRows db name).map (fun r => r.coins)).sum ∧
      ((((playerRows db name).map (fun r => r.score)).sum : ℚ) /
          ((playerRows db name).length : ℚ) ≠ 0 →
        (get_player_stats false db name).average_score =
          (roundHalfEven (10 * ((((playerRows db name).map (fun r => r.score)).sum : ℚ) /
            ((playerRows db name).length : ℚ))) : ℚ) / 10)) := by
  refine ⟨?_, fun db name h => ?_, fun db name h => ?_⟩
  · have hrows : playerRows statsExampleDb "A" = statsExampleDb := by decide
    have hbest : ((statsExampleDb.map (fun r => r.score)).max?).getD 0 = 30 := by
      decide
    have hcoins : (statsExampleDb.map (fun r => r.coins)).sum = 6 := by decide
    have hlen : statsExampleDb.length = 3 := by decide
    have hfloor : ⌊(200 : ℚ)⌋ = 200 := by decide
    have hsumq : (statsExampleDb.map (fun r => (r.score : ℚ))).sum = 60 := by
      norm_num [statsExampleDb]
    have havg : (60 : ℚ) / ((3 : Nat) : ℚ) = 20 := by push_cast; norm_num
    have h200 : roundHalfEven (200 : ℚ) = 200 := by
      unfold roundHalfEven
      rw [hfloor]
      norm_num
    simp only [get_player_stats, hrows, hbest, hcoins, hlen]
    rw [if_neg (by simp : ¬false = true)]
    rw [if_neg (by omega : ¬(3 : Nat) = 0)]
    rw [hsumq, havg]
    rw [if_neg (by norm_num : ¬(20 : ℚ) = 0)]
    have h10 : (10 : ℚ) * 20 = 200 := by norm_num
    rw [h10, h200]
    norm_num
  · simp [get_player_stats, h]
  · have hlen : (playerRows db name).length ≠ 0 := by
      simpa [List.length_eq_zero] using h
    unfold get_player_stats
    rw [if_neg (by simp), if_neg hlen]
    refine ⟨rfl, rfl, rfl, fun havg => ?_⟩
    simp only [if_neg havg]

/-- C7 witness: the zero-rows and general clauses evaluated concretely. -/
theorem c7_player_stats_witness :
    get_player_stats false [] "B" = ⟨0, 0, 0, 0⟩ ∧
    (get_player_stats false statsExampleDb "A").games_played =
      (playerRows statsExampleDb "A").length :=
  ⟨c7_player_stats.2.1 [] "B" rfl,
   (c7_player_stats.2.2 statsExampleDb "A" (by decide)).1⟩

/-- C8: the jump command sets the vertical velocity to the fixed upward
value -350 regardless of the current velocity, so repeated jumps leave
exactly the state of a single jump. -/
theorem c8_jump_fixed_velocity (p : Plane) :
    (p.jump).direction = -350 ∧ p.jump.jump = p.jump ∧
    ∀ q : Plane, q.jump.direction = p.jump.direction :=
  ⟨rfl, rfl, fun _ => rfl⟩

/-- C9: the plane's physics constants are the hardcoded sprite values —
gravity 500 and jump velocity -350 — and differ from the settings-module
constants GRAVITY = 600 and JUMP_STRENGTH = 400, which no simulation
function reads: gravity integration uses the per-sprite constant. -/
theorem c9_settings_constants_unused :
    Plane.init.gravity = 500 ∧ GRAVITY = 600 ∧
    Plane.init.gravity ≠ (GRAVITY : ℚ) ∧
    (∀ p : Plane, (p.jump).direction = -350) ∧ JUMP_STRENGTH = 400 ∧
    (∀ p : Plane, (p.jump).direction ≠ -(JUMP_STRENGTH : ℚ)) ∧
    (∀ (p : Plane) (dt : ℚ),
      (p.apply_gravity dt).direction = p.direction + p.gravity * dt) ∧
    (∀ dt : ℚ, (Plane.init.apply_gravity dt).direction = 500 * dt) := by
  refine ⟨rfl, rfl, by norm_num [Plane.init, GRAVITY], fun p => rfl, rfl,
    fun p => by norm_num [Plane.jump, JUMP_STRENGTH], fun p dt => rfl,
    fun dt => ?_⟩
  show (0 : ℚ) + 500 * dt = 500 * dt
  ring

/-- A frame carrying only an escape keypress, elapsing `d` milliseconds. -/
def escFrame (d : Nat) : Frame :=
  { Frame.idle d with press_escape := true }

/-- The C1 scenario: a session started at tick 0 and paused by an escape
keypress 100 ms in. -/
def c1AtPause : GState :=
  run (start_session [Char.ofNat 65] GState.initial) [escFrame 100]

/-- The C1 scenario continued: five idle seconds elapse while paused. -/
def c1PauseEnd : GState :=
  run c1AtPause [Frame.idle 1000, Frame.idle 1000, Frame.idle 1000,
    Frame.idle 1000, Frame.idle 1000]

/-- The C1 scenario's final frame: an escape keypress resuming play. -/
def c1AtResume : GState := step c1PauseEnd (escFrame 100)

/-- C1 (counterexample): pausing for five simulated seconds and resuming
does not leave the session where it was paused.  The mode stays paused
for the whole window and the obstacle and coin sets stay empty, yet the
score read at resume is 5 where it was 0 at the pause (the draw phase
recomputes it from the wall clock while the session is active), and the
obstacle timer kept running in real time: its deadline moved from 3000
to 6000 during the pause, so its countdown-to-next-fire at resume is
800 ms instead of the 2900 ms outstanding when the pause began. -/
theorem c1_pause_counterexample :
    c1AtPause.mode = Mode.paused ∧ c1AtPause.active = true ∧
    c1PauseEnd.mode = Mode.paused ∧
    c1AtResume.mode = Mode.playing ∧
    c1AtPause.obstacles = [] ∧ c1AtResume.obstacles = [] ∧
    c1AtPause.coins = [] ∧ c1AtResume.coins = [] ∧
    c1AtPause.score = 0 ∧ c1AtResume.score = 5 ∧
    ¬c1AtResume.score = c1AtPause.score ∧
    c1AtPause.obstacle_deadline = 3000 ∧
    c1AtResume.obstacle_deadline = 6000 ∧
    c1AtPause.obstacle_deadline - c1AtPause.now = 2900 ∧
    c1AtResume.obstacle_deadline - c1AtResume.now = 800 ∧
    c1AtResume.db = [] := by
  have hpl : c1PauseEnd.plane = Plane.init := by decide
  have hdtm : min (escFrame 100).dt_ms 50 = 50 := by decide
  have hnocol : ¬roundHalfEven ((c1PauseEnd.plane.apply_gravity
      ((min (escFrame 100).dt_ms 50 : Nat) / 1000 : ℚ)).posY) ≤ 0 := by
    rw [hpl, hdtm]
    have hpos : (Plane.init.apply_gravity (((50 : Nat) : ℚ) / 1000)).posY =
        1605 / 4 := by
      unfold Plane.init Plane.apply_gravity
      norm_num
    rw [hpos]
    have hfl : ⌊(1605 / 4 : ℚ)⌋ = 401 := by
      rw [Int.floor_eq_iff]
      norm_num
    unfold roundHalfEven
    rw [hfl]
    norm_num
  have h := step_resume_eval c1PauseEnd (escFrame 100) (by decide) (by decide)
    rfl rfl rfl (by decide) (by decide) (by decide) (by decide) hnocol (by decide)
  refine ⟨by decide, by decide, by decide, h.1, by decide, h.2.2.2.2.2.2.1,
    by decide, h.2.2.2.2.2.2.2.1, by decide, ?_, ?_, by decide, ?_, by decide,
    ?_, ?_⟩
  · rw [show c1AtResume.score = (step c1PauseEnd (escFrame 100)).score from rfl,
      h.2.2.2.1]
    decide
  · rw [show c1AtResume.score = (step c1PauseEnd (escFrame 100)).score from rfl,
      h.2.2.2.1]
    decide
  · rw [show c1AtResume.obstacle_deadline =
      (step c1PauseEnd (escFrame 100)).obstacle_deadline from rfl, h.2.2.2.2.1]
    decide
  · rw [show c1AtResume.obstacle_deadline =
      (step c1PauseEnd (escFrame 100)).obstacle_deadline from rfl, h.2.2.2.2.1,
      show c1AtResume.now = (step c1PauseEnd (escFrame 100)).now from rfl,
      h.2.2.1]
    decide
  · rw [show c1AtResume.db = (step c1PauseEnd (escFrame 100)).db from rfl,
      h.2.2.2.2.2.2.2.2]
    decide

/-- C1 (amended): while the session is paused and no resume event
arrives, a frame leaves the entity simulation untouched — mode, active
flag, obstacles, coins, coin count, plane and the difficulty registers
are all unchanged and nothing spawns — but the score is rewritten from
the wall clock by the draw phase (elapsed pause time counts toward it),
and the two pygame interval timers keep their real-time schedules: any
fires that fall inside the frame are discarded while the deadlines move
past them, so elapsed pause time does count toward spawn deadlines. -/
theorem c1_paused_frame_frozen (s : GState) (f : Frame)
    (hm : s.mode = Mode.paused) (ha : s.active = true)
    (he : f.press_escape = false) :
    (step s f).mode = Mode.paused ∧ (step s f).active = true ∧
    (step s f).obstacles = s.obstacles ∧ (step s f).coins = s.coins ∧
    (step s f).coin_count = s.coin_count ∧ (step s f).plane = s.plane ∧
    (step s f).difficulty_level = s.difficulty_level ∧
    (step s f).last_difficulty_increase = s.last_difficulty_increase ∧
    (step s f).current_obstacle_interval = s.current_obstacle_interval ∧
    (step s f).db = s.db ∧
    (step s f).now = s.now + f.dt_ms ∧
    (step s f).score = (s.now + f.dt_ms - s.start_offset) / 1000 ∧
    (step s f).obstacle_deadline = s.obstacle_deadline +
      timerFires s.obstacle_deadline s.current_obstacle_interval
        (s.now + f.dt_ms) * s.current_obstacle_interval ∧
    (step s f).coin_deadline = s.coin_deadline +
      timerFires s.coin_deadline 3000 (s.now + f.dt_ms) * 3000 := by
  unfold step events_phase update_phase draw_phase handle_jump_click
    fire_obstacle_timer fire_coin_timer
  simp [he, hm, ha]

/-- A concrete paused session state for the C1 witness. -/
def c1PausedState : GState :=
  { GState.initial with mode := Mode.paused, active := true }

/-- C1 witness: the amended paused-frame facts evaluated on a concrete
paused state elapsing one idle second. -/
theorem c1_paused_frame_frozen_witness :
    (step c1PausedState (Frame.idle 1000)).mode = Mode.paused ∧
    (step c1PausedState (Frame.idle 1000)).active = true ∧
    (step c1PausedState (Frame.idle 1000)).obstacles = c1PausedState.obstacles ∧
    (step c1PausedState (Frame.idle 1000)).coins = c1PausedState.coins ∧
    (step c1PausedState (Frame.idle 1000)).coin_count = c1PausedState.coin_count ∧
    (step c1PausedState (Frame.idle 1000)).plane = c1PausedState.plane ∧
    (step c1PausedState (Frame.idle 1000)).difficulty_level =
      c1PausedState.difficulty_level ∧
    (step c1PausedState (Frame.idle 1000)).last_difficulty_increase =
      c1PausedState.last_difficulty_increase ∧
    (step c1PausedState (Frame.idle 1000)).current_obstacle_interval =
      c1PausedState.current_obstacle_interval ∧
    (step c1PausedState (Frame.idle 1000)).db = c1PausedState.db ∧
    (step c1PausedState (Frame.idle 1000)).now =
      c1PausedState.now + (Frame.idle 1000).dt_ms ∧
    (step c1PausedState (Frame.idle 1000)).score =
      (c1PausedState.now + (Frame.idle 1000).dt_ms -
        c1PausedState.start_offset) / 1000 ∧
    (step c1PausedState (Frame.idle 1000)).obstacle_deadline =
      c1PausedState.obstacle_deadline +
      timerFires c1PausedState.obstacle_deadline
        c1PausedState.current_obstacle_interval
        (c1PausedState.now + (Frame.idle 1000).dt_ms) *
        c1PausedState.current_obstacle_interval ∧
    (step c1PausedState (Frame.idle 1000)).coin_deadline =
      c1PausedState.coin_deadline +
      timerFires c1PausedState.coin_deadline 3000
        (c1PausedState.now + (Frame.idle 1000).dt_ms) * 3000 :=
  c1_paused_frame_frozen c1PausedState (Frame.idle 1000) rfl rfl rfl

/-- C4: a terminal condition — the mask-collision test firing or the
plane's top at or above the ceiling — moves the session to game over
with active off and appends the {name, score, coins} row exactly when
the score is positive; a non-terminal frame changes nothing there; and
over any whole session run the store grows by at most one row. -/
theorem c4_terminal_transition (s : GState) (c : Bool) (fs : List Frame) :
    ((c = true ∨ roundHalfEven s.plane.posY ≤ 0) →
      (handle_collision s c).mode = Mode.game_over ∧
      (handle_collision s c).active = false ∧
      (0 < s.score → (handle_collision s c).db = s.db ++
        [⟨String.mk s.player_name, (s.score : Int), (s.coin_count : Int)⟩]) ∧
      (s.score = 0 → (handle_collision s c).db = s.db)) ∧
    (¬(c = true ∨ roundHalfEven s.plane.posY ≤ 0) →
      handle_collision s c = s) ∧
    (run s fs).db.length ≤ s.db.length + (if s.active = true then 1 else 0) := by
  refine ⟨fun h => ?_, fun h => ?_, run_db_len fs s⟩
  · rcases handle_collision_cases s c with ⟨hn, _⟩ | ⟨_, hact, hmode, _, hdb⟩
    · exact absurd h hn
    · refine ⟨hmode, hact, fun hpos => ?_, fun hz => ?_⟩
      · rcases hdb with ⟨_, h1⟩ | ⟨h0, _⟩
        · exact h1
        · omega
      · rcases hdb with ⟨h0, _⟩ | ⟨_, h1⟩
        · omega
        · exact h1
  · rcases handle_collision_cases s c with ⟨_, heq⟩ | ⟨hc, _⟩
    · exact heq
    · exact absurd hc h

/-- A frame whose mask-collision oracle fires, elapsing 100 ms. -/
def collideFrame : Frame :=
  { Frame.idle 100 with collide := true }

/-- A concrete mid-session state for the C4 witness: playing, active,
score 2, one coin banked. -/
def c4State : GState :=
  { GState.initial with
      mode := Mode.playing, active := true, score := 2,
      coin_count := 1, player_name := [Char.ofNat 65] }

/-- C4 witness: the terminal transition and the one-row session bound
evaluated on a concrete colliding state. -/
theorem c4_terminal_transition_witness :
    (handle_collision c4State true).mode = Mode.game_over ∧
    (handle_collision c4State true).active = false ∧
    (handle_collision c4State true).db = c4State.db ++
      [⟨String.mk c4State.player_name, (c4State.score : Int),
        (c4State.coin_count : Int)⟩] ∧
    (run c4State [collideFrame, collideFrame]).db.length ≤
      c4State.db.length + (if c4State.active = true then 1 else 0) := by
  have h := c4_terminal_transition c4State true [collideFrame, collideFrame]
  exact ⟨(h.1 (Or.inl rfl)).1, (h.1 (Or.inl rfl)).2.1,
    (h.1 (Or.inl rfl)).2.2.1 (by decide), h.2.2⟩

/-- A concrete state about to level up, for C5: playing and active at
tick 10000 with score 10, watermark 0, level 1, and both timers
mid-countdown. -/
def c5State : GState :=
  { GState.initial with
      mode := Mode.playing, active := true, score := 10,
      now := 10000, obstacle_deadline := 11000, coin_deadline := 12000 }

/-- C5 (counterexample): the claim says both spawn timers are rearmed on
a level advance, but when the difficulty engine advances from level 1 to
level 2 the coin timer is left on its old schedule: its deadline stays
12000 instead of being rearmed to now + 3000 = 13000 (while the obstacle
timer is rearmed to now + 2800). -/
theorem c5_coin_timer_not_rearmed_counterexample :
    (maybeAdvance c5State.score
      ⟨c5State.difficulty_level, c5State.last_difficulty_increase⟩).2 = true ∧
    (adjust_difficulty c5State).difficulty_level = 2 ∧
    (adjust_difficulty c5State).obstacle_deadline = c5State.now + 2800 ∧
    (adjust_difficulty c5State).coin_deadline = 12000 ∧
    ¬(adjust_difficulty c5State).coin_deadline = c5State.now + 3000 := by
  decide

/-- C5 (amended): whenever the difficulty engine advances the level, the
obstacle timer alone is rearmed with the new tier's interval — the
interval register, spawn speed and deadline (now + new interval) all
reload — while the coin timer is not rearmed: its deadline and its
constant 3000 ms period are left untouched. -/
theorem c5_obstacle_timer_rearmed (s : GState)
    (h : (maybeAdvance s.score
      ⟨s.difficulty_level, s.last_difficulty_increase⟩).2 = true) :
    (adjust_difficulty s).difficulty_level = s.difficulty_level + 1 ∧
    (adjust_difficulty s).last_difficulty_increase = s.score ∧
    (adjust_difficulty s).current_obstacle_interval =
      (difficultyGetMax (s.difficulty_level + 1)).interval ∧
    (adjust_difficulty s).obstacle_speed =
      (difficultyGetMax (s.difficulty_level + 1)).speed ∧
    (adjust_difficulty s).obstacle_deadline =
      s.now + (difficultyGetMax (s.difficulty_level + 1)).interval ∧
    (adjust_difficulty s).coin_deadline = s.coin_deadline := by
  have hfst := maybeAdvance_fst_of_true _ _ h
  unfold adjust_difficulty
  simp [h, hfst]

/-- C5 witness: the amended rearm facts evaluated on the concrete
level-up state. -/
theorem c5_obstacle_timer_rearmed_witness :
    (adjust_difficulty c5State).difficulty_level = c5State.difficulty_level + 1 ∧
    (adjust_difficulty c5State).last_difficulty_increase = c5State.score ∧
    (adjust_difficulty c5State).current_obstacle_interval =
      (difficultyGetMax (c5State.difficulty_level + 1)).interval ∧
    (adjust_difficulty c5State).obstacle_speed =
      (difficultyGetMax (c5State.difficulty_level + 1)).speed ∧
    (adjust_difficulty c5State).obstacle_deadline =
      c5State.now + (difficultyGetMax (c5State.difficulty_level + 1)).interval ∧
    (adjust_difficulty c5State).coin_deadline = c5State.coin_deadline :=
  c5_obstacle_timer_rearmed c5State (by decide)

/-- C10: any row a session run adds to the store carries exactly the
player name entered on the name-input screen, and that name — since the
game only starts when the entered text is non-empty, and the input box
only ever accumulates alphanumeric keystrokes up to twelve characters —
is non-empty, at most twelve characters long and purely alphanumeric. -/
theorem c10_record_name_validity (es : List InputEvent) (fs : List Frame)
    (s : GState)
    (hne : ¬(es.foldl TextInput.handle_event nameInputInit).text = []) :
    ∀ r ∈ (run (start_session
        (es.foldl TextInput.handle_event nameInputInit).text s) fs).db,
      r ∈ s.db ∨
      (r.name = String.mk (es.foldl TextInput.handle_event nameInputInit).text ∧
        ¬r.name = "" ∧
        (es.foldl TextInput.handle_event nameInputInit).text.length ≤ 12 ∧
        (es.foldl TextInput.handle_event nameInputInit).text.all pyIsAlnum = true) := by
  intro r hr
  have hinv := foldl_handle_event_inv es nameInputInit rfl (by simp [nameInputInit])
    (by simp [nameInputInit])
  have hmem := run_db_mem fs
    (start_session (es.foldl TextInput.handle_event nameInputInit).text s) r hr
  rcases hmem with h1 | h2
  · exact Or.inl h1
  · right
    have hpn : (start_session
        (es.foldl TextInput.handle_event nameInputInit).text s).player_name =
        (es.foldl TextInput.handle_event nameInputInit).text := rfl
    rw [hpn] at h2
    refine ⟨h2, ?_, hinv.2.1, hinv.2.2⟩
    rw [h2]
    intro hc
    exact hne (congrArg String.data hc)

/-- The keystrokes of the C10 witness scenario: the letters A, b and the
digit 3 typed into the name box. -/
def c10Events : List InputEvent :=
  [InputEvent.char (Char.ofNat 65), InputEvent.char (Char.ofNat 98),
   InputEvent.char (Char.ofNat 51)]

/-- The frames of the C10 witness scenario: the session is paused for
1.5 seconds (which brings the wall-clock score to 1), then an escape
keypress resumes play in a frame whose collision oracle fires, ending
the session with one record written. -/
def c10Frames : List Frame :=
  [escFrame 1500, { escFrame 100 with collide := true }]

/-- C10 witness: the row written by the concrete session carries the
entered name "Ab3", which is non-empty, within twelve characters and
alphanumeric. -/
theorem c10_record_name_validity_witness :
    (⟨"Ab3", 1, 0⟩ : ScoreRow) ∈ GState.initial.db ∨
    ((⟨"Ab3", 1, 0⟩ : ScoreRow).name =
        String.mk (c10Events.foldl TextInput.handle_event nameInputInit).text ∧
      ¬(⟨"Ab3", 1, 0⟩ : ScoreRow).name = "" ∧
      (c10Events.foldl TextInput.handle_event nameInputInit).text.length ≤ 12 ∧
      (c10Events.foldl TextInput.handle_event nameInputInit).text.all
        pyIsAlnum = true) :=
  c10_record_name_validity c10Events c10Frames GState.initial (by decide)
    ⟨"Ab3", 1, 0⟩ (by decide)

end AirRush
